import Mathlib

/-!
Verification of the Dumpster-leads permit pipeline.

This file shallowly embeds the two scripts of the repository,
`scripts/parse_permits.py` (the permit-type classifier and CSV scorer) and
`scripts/run_daily.py` (the portal scraper: grid parsing, pagination,
record normalisation and SHA-256 fingerprinting), and proves the spec's
claims about them.

Python strings are modelled as Lean `String` manipulated through
`List Char` (all relevant data is ASCII); Python ints as `Int`; Python
`None` vs strings as `Option String` or the `PyVal` sum; dicts as
association lists in insertion order, with `setKey`-style updates that
mirror CPython's ordered-dict assignment semantics.
-/

/-- The characters matched by Python's `str.strip()` / regex `\s` on ASCII
text: space, tab, newline, carriage return, vertical tab, form feed. -/
def isPySpace (c : Char) : Bool :=
  c == ' ' || c == '\t' || c == '\n' || c == '\r' || c == '\x0b' || c == '\x0c'

/-- Collapse every run of whitespace to a single space, as
`re.sub(r"\s+", " ", s)` does (`parse_permits.py`, line 14).  The flag
records whether the previous character was part of a whitespace run. -/
def collapseAux : Bool → List Char → List Char
  | _, [] => []
  | prevSpace, c :: rest =>
    if isPySpace c then
      if prevSpace then collapseAux true rest
      else ' ' :: collapseAux true rest
    else c :: collapseAux false rest

/-- Python `str.strip()`: drop leading and trailing whitespace. -/
def pyStrip (l : List Char) : List Char :=
  ((l.dropWhile isPySpace).reverse.dropWhile isPySpace).reverse

/-- Python `str.strip()` on a `String`. -/
def stripStr (s : String) : String := ⟨pyStrip s.data⟩

/-- Function `norm` from `parse_permits.py` lines 10-15 applied to a string input:
strip, then collapse internal whitespace runs to single spaces.
(The `s is None` branch is handled at call sites via `PyVal`.)
`run_daily.py` line 166 computes the same function as
`" ".join(t.split())`. -/
def norm (s : String) : String := ⟨collapseAux false (pyStrip s.data)⟩

/-- Python `str.upper()`, character-wise (ASCII data). -/
def upperStr (s : String) : String := ⟨s.data.map Char.toUpper⟩

/-- Function `up` from `parse_permits.py` lines 17-18: `norm(s).upper()`. -/
def up (s : String) : String := upperStr (norm s)

/-- Does `needle` occur at the head of `hay`? -/
def matchesAt (needle hay : List Char) : Bool :=
  match needle, hay with
  | [], _ => true
  | _ :: _, [] => false
  | a :: as, b :: bs => a == b && matchesAt as bs

/-- Does `needle` occur as a contiguous sublist of `hay`? -/
def hasSub (needle : List Char) : List Char → Bool
  | [] => needle.isEmpty
  | b :: bs => matchesAt needle (b :: bs) || hasSub needle bs

/-- Python's substring test `needle in hay`. -/
def pyIn (needle hay : String) : Bool := hasSub needle.data hay.data

/-- Function `tier` from `parse_permits.py` lines 20-25. -/
def tier (score : Int) : String :=
  if score ≥ 85 then "A"
  else if score ≥ 70 then "B"
  else if score ≥ 55 then "C"
  else "D"

/-- The rule cascade of `score_permit_type` (`parse_permits.py` lines
32-65), as a function of the already-normalised label `pt = up(pt_raw)`. -/
def scoreCore (pt : String) : Int × String :=
  if pyIn "DEMOLITION" pt then (98, "Demolition = high debris")
  else if pyIn "NEW CONSTRUCTION" pt then (92, "New construction = high debris")
  else if pyIn "COMMERCIAL INTERIOR UPFIT" pt || (pyIn "UPFIT" pt && pyIn "COMMERCIAL" pt) then
    (86, "Commercial upfit = tear-out debris")
  else if pyIn "ADDITION" pt then (84, "Addition = construction debris")
  else if pyIn "ACCESSORY STRUCTURE" pt || pyIn "ACESSORY STRUCTURE" pt then
    (76, "Accessory structure = framing/debris")
  else if pyIn "SWIMMING POOL" pt then (78, "Pool install = excavation/packaging debris")
  else if pyIn "EXTERIOR" pt && pyIn "ALTER" pt then
    (70, "Exterior alteration often creates debris (varies)")
  else if pyIn "INTERIOR" pt && pyIn "ALTER" pt then
    (66, "Interior alteration often creates debris (varies)")
  else if pyIn "REROOF" pt || pyIn "RE-ROOF" pt then
    (60, "Reroof sometimes uses dumpster (contractor-dependent)")
  else if pyIn "MANUFACTURED HOME" pt && (pyIn "SET UP" pt || pyIn "SETUP" pt) then
    (52, "Manufactured setup may create packaging/debris")
  else if pyIn "FEASIBILITY" pt then (10, "Feasibility = planning, no debris")
  else if pyIn "STANDAL" pt || pyIn "STANDALONE" pt then
    (25, "Standalone trade permit often no dumpster")
  else (40, "Unclassified permit type")

/-- Function `score_permit_type` from `parse_permits.py` lines 27-65: normalise the
raw label with `up`, then run the rule cascade. -/
def score_permit_type (pt_raw : String) : Int × String := scoreCore (up pt_raw)

/-- Disjunction of every rule condition of `score_permit_type`, in source
order; `false` exactly when the input falls through to the fallback. -/
def matchesAnyRule (pt : String) : Bool :=
  pyIn "DEMOLITION" pt ||
  pyIn "NEW CONSTRUCTION" pt ||
  (pyIn "COMMERCIAL INTERIOR UPFIT" pt || (pyIn "UPFIT" pt && pyIn "COMMERCIAL" pt)) ||
  pyIn "ADDITION" pt ||
  (pyIn "ACCESSORY STRUCTURE" pt || pyIn "ACESSORY STRUCTURE" pt) ||
  pyIn "SWIMMING POOL" pt ||
  (pyIn "EXTERIOR" pt && pyIn "ALTER" pt) ||
  (pyIn "INTERIOR" pt && pyIn "ALTER" pt) ||
  (pyIn "REROOF" pt || pyIn "RE-ROOF" pt) ||
  (pyIn "MANUFACTURED HOME" pt && (pyIn "SET UP" pt || pyIn "SETUP" pt)) ||
  pyIn "FEASIBILITY" pt ||
  (pyIn "STANDAL" pt || pyIn "STANDALONE" pt)

/-! ### SHA-256 (`hashlib.sha256(...).hexdigest()` in `run_daily.py` line 23)

Bytes and 32-bit words are `Nat`s kept below `2^8` / `2^32`; overflow is
explicit reduction `% 2^32`. -/

/-- Truncate to a 32-bit word. -/
def w32 (n : Nat) : Nat := n % 4294967296

/-- Right-rotation of a 32-bit word by `k` places. -/
def rotr (k n : Nat) : Nat := w32 ((n >>> k) ||| (n <<< (32 - k)))

/-- SHA-256 big sigma 0. -/
def bsig0 (x : Nat) : Nat := rotr 2 x ^^^ rotr 13 x ^^^ rotr 22 x

/-- SHA-256 big sigma 1. -/
def bsig1 (x : Nat) : Nat := rotr 6 x ^^^ rotr 11 x ^^^ rotr 25 x

/-- SHA-256 small sigma 0. -/
def ssig0 (x : Nat) : Nat := rotr 7 x ^^^ rotr 18 x ^^^ (x >>> 3)

/-- SHA-256 small sigma 1. -/
def ssig1 (x : Nat) : Nat := rotr 17 x ^^^ rotr 19 x ^^^ (x >>> 10)

/-- SHA-256 choose function; the bitwise complement of `x` is taken against
the 32-bit mask. -/
def shaCh (x y z : Nat) : Nat := (x &&& y) ^^^ ((4294967295 ^^^ x) &&& z)

/-- SHA-256 majority function. -/
def shaMaj (x y z : Nat) : Nat := (x &&& y) ^^^ (x &&& z) ^^^ (y &&& z)

/-- The 64 SHA-256 round constants. -/
def shaK : List Nat :=
  [0x428A2F98, 0x71374491, 0xB5C0FBCF, 0xE9B5DBA5, 0x3956C25B, 0x59F111F1,
    0x923F82A4, 0xAB1C5ED5, 0xD807AA98, 0x12835B01, 0x243185BE, 0x550C7DC3,
    0x72BE5D74, 0x80DEB1FE, 0x9BDC06A7, 0xC19BF174, 0xE49B69C1, 0xEFBE4786,
    0x0FC19DC6, 0x240CA1CC, 0x2DE92C6F, 0x4A7484AA, 0x5CB0A9DC, 0x76F988DA,
    0x983E5152, 0xA831C66D, 0xB00327C8, 0xBF597FC7, 0xC6E00BF3, 0xD5A79147,
    0x06CA6351, 0x14292967, 0x27B70A85, 0x2E1B2138, 0x4D2C6DFC, 0x53380D13,
    0x650A7354, 0x766A0ABB, 0x81C2C92E, 0x92722C85, 0xA2BFE8A1, 0xA81A664B,
    0xC24B8B70, 0xC76C51A3, 0xD192E819, 0xD6990624, 0xF40E3585, 0x106AA070,
    0x19A4C116, 0x1E376C08, 0x2748774C, 0x34B0BCB5, 0x391C0CB3, 0x4ED8AA4A,
    0x5B9CCA4F, 0x682E6FF3, 0x748F82EE, 0x78A5636F, 0x84C87814, 0x8CC70208,
    0x90BEFFFA, 0xA4506CEB, 0xBEF9A3F7, 0xC67178F2]

/-- Big-endian byte expansion: the `k` bytes of `n`. -/
def bytesBE (k n : Nat) : List Nat :=
  (List.range k).reverse.map (fun i => (n >>> (8 * i)) &&& 255)

/-- SHA-256 message padding: append `0x80`, zero bytes up to 56 mod 64,
then the 64-bit big-endian bit length. -/
def shaPad (msg : List Nat) : List Nat :=
  msg ++ 0x80 :: List.replicate ((119 - msg.length % 64) % 64) 0 ++ bytesBE 8 (8 * msg.length)

/-- Group a byte list into big-endian 32-bit words (fuelled recursion; the
fuel `l.length` always suffices). -/
def toWordsAux : Nat → List Nat → List Nat
  | 0, _ => []
  | fuel + 1, a :: b :: c :: d :: rest =>
    ((a <<< 24) ||| (b <<< 16) ||| (c <<< 8) ||| d) :: toWordsAux fuel rest
  | _ + 1, _ => []

/-- Byte list to big-endian 32-bit words. -/
def toWords (l : List Nat) : List Nat := toWordsAux l.length l

/-- Split a word list into 16-word blocks (fuelled recursion). -/
def blocksAux : Nat → List Nat → List (List Nat)
  | 0, _ => []
  | _ + 1, [] => []
  | fuel + 1, l => l.take 16 :: blocksAux fuel (l.drop 16)

/-- Split a word list into 16-word blocks. -/
def shaBlocks (l : List Nat) : List (List Nat) := blocksAux l.length l

/-- Extend a 16-word block to the 64-word message schedule. -/
def shaSchedule (block : List Nat) : List Nat :=
  (List.range 48).foldl
    (fun w i =>
      w ++ [w32 (ssig1 (w.getD (i + 14) 0) + w.getD (i + 9) 0 + ssig0 (w.getD (i + 1) 0) + w.getD i 0)])
    block

/-- The eight 32-bit working variables of the SHA-256 compression loop. -/
structure ShaState where
  a : Nat
  b : Nat
  c : Nat
  d : Nat
  e : Nat
  f : Nat
  g : Nat
  h : Nat

/-- One SHA-256 compression round. -/
def shaStep (st : ShaState) (kw : Nat × Nat) : ShaState :=
  let t1 := w32 (st.h + bsig1 st.e + shaCh st.e st.f st.g + kw.1 + kw.2)
  let t2 := w32 (bsig0 st.a + shaMaj st.a st.b st.c)
  ⟨w32 (t1 + t2), st.a, st.b, st.c, w32 (st.d + t1), st.e, st.f, st.g⟩

/-- Compress one 16-word block into the running hash state. -/
def shaCompress (st : ShaState) (block : List Nat) : ShaState :=
  let t := (shaK.zip (shaSchedule block)).foldl shaStep st
  ⟨w32 (st.a + t.a), w32 (st.b + t.b), w32 (st.c + t.c), w32 (st.d + t.d),
   w32 (st.e + t.e), w32 (st.f + t.f), w32 (st.g + t.g), w32 (st.h + t.h)⟩

/-- The SHA-256 initial hash value. -/
def shaH0 : ShaState :=
  ⟨0x6A09E667, 0xBB67AE85, 0x3C6EF372, 0xA54FF53A, 0x510E527F, 0x9B05688C, 0x1F83D9AB, 0x5BE0CD19⟩

/-- SHA-256 of a byte list, as eight 32-bit words. -/
def sha256Words (msg : List Nat) : List Nat :=
  let fin := (shaBlocks (toWords (shaPad msg))).foldl shaCompress shaH0
  [fin.a, fin.b, fin.c, fin.d, fin.e, fin.f, fin.g, fin.h]

/-- Lower-case hex digit. -/
def hexDigit (n : Nat) : Char := if n < 10 then Char.ofNat (48 + n) else Char.ofNat (87 + n)

/-- Eight hex digits of a 32-bit word, most significant first. -/
def wordHex (n : Nat) : List Char :=
  (List.range 8).reverse.map (fun i => hexDigit ((n >>> (4 * i)) &&& 15))

/-- UTF-8 encoding of one character (Python `str.encode("utf-8")`). -/
def utf8Bytes (c : Char) : List Nat :=
  let n := c.toNat
  if n < 0x80 then [n]
  else if n < 0x800 then [0xc0 ||| (n >>> 6), 0x80 ||| (n &&& 0x3f)]
  else if n < 0x10000 then
    [0xe0 ||| (n >>> 12), 0x80 ||| ((n >>> 6) &&& 0x3f), 0x80 ||| (n &&& 0x3f)]
  else
    [0xf0 ||| (n >>> 18), 0x80 ||| ((n >>> 12) &&& 0x3f), 0x80 ||| ((n >>> 6) &&& 0x3f),
     0x80 ||| (n &&& 0x3f)]

/-- UTF-8 bytes of a string. -/
def strBytes (s : String) : List Nat := (s.data.map utf8Bytes).flatten

/-- Model of `hashlib.sha256(s.encode("utf-8")).hexdigest()`. -/
def sha256hex (s : String) : String := ⟨((sha256Words (strBytes s)).map wordHex).flatten⟩

/-- The field join of `fp` (`run_daily.py` line 22):
`f"{issued_date}|{permit_no}|{address}|{permit_type}|{status}"`. -/
def fpJoined (issued_date permit_no address permit_type status : String) : String :=
  issued_date ++ "|" ++ permit_no ++ "|" ++ address ++ "|" ++ permit_type ++ "|" ++ status

/-- Function `fp` from `run_daily.py` lines 21-23: SHA-256 hex digest of the
upper-cased, `|`-joined five fields. -/
def fp (issued_date permit_no address permit_type status : String) : String :=
  sha256hex (upperStr (fpJoined issued_date permit_no address permit_type status))

/-! ### Grid rows (`parse_grid_rows`, `run_daily.py` lines 152-172) -/

/-- A parsed grid row: a Python dict from cell name to cell text, in
insertion order. -/
abbrev Row : Type := List (String × String)

/-- Python ordered-dict assignment `d[k] = v` on an association list:
overwrite in place when the key exists, else append. -/
def setKeyS (r : Row) (k v : String) : Row :=
  if (List.lookup k r).isSome then
    r.map (fun p => if p.1 = k then (k, v) else p)
  else r ++ [(k, v)]

/-- Build a Python dict from a pair list by repeated assignment (models
a dict comprehension, including its keep-last behaviour on duplicate
keys). -/
def dictOfPairs (ps : List (String × String)) : Row :=
  ps.foldl (fun r p => setKeyS r p.1 p.2) []

/-- Header cleaning of `parse_grid_rows` line 159:
`[h.strip() for h in headers if h.strip()]`. -/
def cleanHeaders (hs : List String) : List String :=
  (hs.map stripStr).filter (fun h => h != "")

/-- One row of `parse_grid_rows` (lines 164-171): cells are
whitespace-normalised (`" ".join(t.split())`, which equals `norm`); a row
with at least as many cells as (already cleaned) headers becomes a
header-keyed dict, any other row becomes a positionally keyed dict
`{col_j: cell_j}`.  The `col_j` keys are pairwise distinct, so that dict
is exactly this association list. -/
def parse_grid_row (headers : List String) (tds_raw : List String) : Row :=
  let tds := tds_raw.map norm
  if headers ≠ [] ∧ headers.length ≤ tds.length then
    dictOfPairs (headers.zip tds)
  else
    tds.enum.map (fun p => ("col_" ++ toString p.1, p.2))

/-! ### Pagination (`click_next_if_available` and `run_search`,
`run_daily.py` lines 174-220 and 262-282)

The portal is abstracted as the sequence of row lists the grid would
yield on each page, together with, per page, whether a pager "next"
control is found and whether its class marks it disabled.  The source
compares `json.dumps(first_row, sort_keys=True)` signatures; `dumps` is
injective on these string-keyed dicts and never returns the empty string
used for "no rows", so the signature is modelled as `Option Row`
(`rows.head?`). -/

/-- Abstract portal state seen by the pagination code. -/
structure Portal where
  pages : List (List Row)
  nextPresent : Nat → Bool
  nextDisabled : Nat → Bool

/-- Model of `click_next_if_available` (lines 174-220), on page `i` with first-row
signature `sig1`: fail when no next control is found or it is disabled;
otherwise click, re-parse, and report an advance only when the new page
has rows and a first row different from `sig1`. -/
def click_next_if_available (P : Portal) (i : Nat) (sig1 : Option Row) : Bool :=
  if !(P.nextPresent i) then false
  else if P.nextDisabled i then false
  else
    match (P.pages.getD (i + 1) []).head? with
    | none => false
    | some r2 => some r2 != sig1

/-- The row collection of `run_search` (lines 268-282): parse page one,
attempt a single next click, and extend with page two's rows only when
that click reported an advance. -/
def run_search_rows (P : Portal) : List Row :=
  let rows1 := P.pages.getD 0 []
  let sig1 := rows1.head?
  if click_next_if_available P 0 sig1 then rows1 ++ P.pages.getD 1 []
  else rows1

/-! ### Canonical records (`main`, `run_daily.py` lines 316-348)

Field values in the JSON record are either strings or `null`; they are
modelled as `Option String` so that the two are distinguishable, with
`none` for Python `None`. -/

/-- The `project` sub-object of a record. -/
structure Project where
  address : Option String
  description : Option String
  permit_type : Option String
  value : Option String
  site_apn : Option String
  permit_no : Option String
  status : Option String
deriving DecidableEq

/-- The `contractor` sub-object of a record. -/
structure Contractor where
  name : Option String
  phone : Option String
  license : Option String
deriving DecidableEq

/-- The `owner` sub-object of a record. -/
structure Owner where
  name : Option String
  address : Option String
deriving DecidableEq

/-- One entry of the `signals` list produced by `debris_signal`.  The
float literal `0.7` is represented exactly as a rational. -/
structure Signal where
  name : String
  confidence : ℚ
  evidence : List String
deriving DecidableEq

/-- The canonical output record built in `main` (lines 327-347). -/
structure PermitRecord where
  source : String
  jurisdiction : String
  issued_date : String
  project : Project
  contractor : Contractor
  owner : Owner
  signals : List Signal
  fingerprint : String
  source_url : String
  scraped_at : String
  confidence : ℚ
deriving DecidableEq

/-- Constant `SEARCH_URL` from `run_daily.py` line 8. -/
def SEARCH_URL : String := "https://grvlc-trk.aspgov.com/eTRAKiT/Search/permit.aspx"

/-- Python's `a or b or ... or default` over optional strings: the first
operand that is present and non-empty, else the final default. -/
def firstTruthy : List (Option String) → String → String
  | [], d => d
  | x :: xs, d =>
    match x with
    | some s => if s = "" then firstTruthy xs d else s
    | none => firstTruthy xs d

/-- The keyword list of `debris_signal` (`run_daily.py` line 287). -/
def debrisKeywords : List String :=
  ["DEMO", "DEMOL", "TEAR", "ROOF", "REMODEL", "RENOV", "ADDITION", "CONCRETE", "REMOVE", "DUMPSTER"]

/-- Function `debris_signal` from `run_daily.py` lines 284-292. -/
def debris_signal (desc : String) : List Signal :=
  let d := upperStr desc
  let hits := debrisKeywords.filter (fun k => pyIn k d)
  if hits = [] then []
  else [⟨"debris_generation", 7 / 10, hits.take 6⟩]

/-- The per-row record construction of `main` (`run_daily.py` lines
317-348): header lookups with `or`-chained fallbacks defaulting to the
empty string (`ISSUED` defaults to the queried date), fixed provenance
fields, `debris_signal` over the description, and the `fp` fingerprint.
`scraped_at` (source: `now_iso()`) is passed in as the run clock. -/
def mkRecord (issued_date scraped_at : String) (r : Row) : PermitRecord :=
  let permit_no := firstTruthy [List.lookup "PERMIT_NO" r, List.lookup "Permit No" r, List.lookup "PERMIT" r] ""
  let issued := firstTruthy [List.lookup "ISSUED" r] issued_date
  let permit_type := firstTruthy [List.lookup "Permit Type" r, List.lookup "PERMIT TYPE" r] ""
  let status := firstTruthy [List.lookup "STATUS" r] ""
  let site_addr := firstTruthy [List.lookup "SITE_ADDR" r, List.lookup "SITE ADDR" r, List.lookup "SITE_ADDR " r] ""
  let site_apn := firstTruthy [List.lookup "SITE_APN" r] ""
  let desc := permit_type
  { source := "etrakit"
    jurisdiction := "Greenville County"
    issued_date := issued
    project :=
      { address := some site_addr
        description := some desc
        permit_type := some permit_type
        value := none
        site_apn := some site_apn
        permit_no := some permit_no
        status := some status }
    contractor := ⟨none, none, none⟩
    owner := ⟨none, none⟩
    signals := debris_signal desc
    fingerprint := fp issued permit_no site_addr permit_type status
    source_url := SEARCH_URL
    scraped_at := scraped_at
    confidence := 3 / 4 }

/-- The full record transformation of `main` (lines 316-348): one output
record per extracted row, in order, with no deduplication step. -/
def mainRecords (issued_date scraped_at : String) (rows : List Row) : List PermitRecord :=
  rows.map (mkRecord issued_date scraped_at)

/-! ### The CSV scorer (`main`, `parse_permits.py` lines 104-132)

`csv.DictReader` rows carry strings, but Python dict values are untyped:
the scorer stores the computed score as an `int`, so cell values are
modelled by the sum `PyVal`. -/

/-- A Python cell value: a string, an int, or `None`. -/
inductive PyVal where
  | vstr : String → PyVal
  | vint : Int → PyVal
  | vnone : PyVal
deriving DecidableEq

/-- A CSV row: a Python dict from column name to cell value, in
insertion order. -/
abbrev RowCsv : Type := List (String × PyVal)

/-- Python ordered-dict assignment `d[k] = v` for CSV rows. -/
def setKeyV (r : RowCsv) (k : String) (v : PyVal) : RowCsv :=
  if (List.lookup k r).isSome then
    r.map (fun p => if p.1 = k then (k, v) else p)
  else r ++ [(k, v)]

/-- The string `norm` (and hence `up` and `score_permit_type`) sees for a
cell value: `norm` returns `""` for `None` (`parse_permits.py` lines
11-12) and otherwise works on `str(s)`. -/
def strOf : PyVal → String
  | .vstr s => s
  | .vint n => toString n
  | .vnone => ""

/-- Python `int(x)` as applied by the sort key (`parse_permits.py` line 124).
In the pipeline the value is always the stored `int` score; the other
branches (which would raise in Python on non-numeric data) are modelled
as the numeric reading with default 0. -/
def pyIntOf : PyVal → Int
  | .vint n => n
  | .vstr s => (String.toInt? s).getD 0
  | .vnone => 0

/-- The row extension of the scorer loop (`parse_permits.py` lines
108-121): look up the permit-type column (default `""`), score and tier
it, and assign the three new columns. -/
def extendRow (ptCol : String) (r : RowCsv) : RowCsv :=
  let pt := (List.lookup ptCol r).getD (.vstr "")
  let sr := score_permit_type (strOf pt)
  setKeyV (setKeyV (setKeyV r "dumpster_score" (.vint sr.1)) "dumpster_tier" (.vstr (tier sr.1)))
    "dumpster_reason" (.vstr sr.2)

/-- The sort key of `parse_permits.py` line 124:
`int(x.get("dumpster_score", 0))`. -/
def sortKey (x : RowCsv) : Int := pyIntOf ((List.lookup "dumpster_score" x).getD (.vint 0))

/-- The output row list of the scorer (`parse_permits.py` lines 104-124):
every input row extended, then stably sorted by score, highest first
(`reverse=True`). -/
def scoredRows (ptCol : String) (rows : List RowCsv) : List RowCsv :=
  (rows.map (extendRow ptCol)).mergeSort (fun a b => decide (sortKey b ≤ sortKey a))

/-! ### Concrete fixtures used by counterexamples and witnesses -/

/-- A label that contains both the upfit and the addition tokens, and
also the demolition token. -/
def upfitAdditionDemoLabel : String := "Demolition Commercial Interior Upfit Addition"

/-- A grid row as `parse_grid_rows` would emit for the spec's end-to-end
example. -/
def exGridRow : Row :=
  [("PERMIT_NO", "P-100"), ("ISSUED", "01/02/2024"), ("Permit Type", "DEMOLITION"),
   ("STATUS", "ISSUED"), ("SITE_ADDR", "100 Main St"), ("SITE_APN", "123-45")]

/-- A one-cell grid row used as page content in pagination fixtures. -/
def pageRow (s : String) : Row := [("PERMIT_NO", s)]

/-- A three-page portal whose next control is always present and never
disabled, with pairwise distinct first rows. -/
def portal3 : Portal :=
  { pages := [[pageRow "P-1"], [pageRow "P-2"], [pageRow "P-3"]]
    nextPresent := fun _ => true
    nextDisabled := fun _ => false }

/-- A one-row CSV fixture for the scorer. -/
def exCsvRow : RowCsv := [("Permit Type", .vstr "DEMOLITION")]

/-! ## Theorems -/

/-- C1: for every record, the fingerprint is the SHA-256 hex digest of the
upper-cased `|`-join of the five identity fields; at the spec's example
tuple it equals `SHA256("01/02/2024|P-100|100 MAIN ST|DEMOLITION|ISSUED")`;
and it is a pure function of the five fields. -/
theorem fp_sha256_of_upper_joined :
    (∀ i p a c s : String,
        fp i p a c s = sha256hex (upperStr (fpJoined i p a c s))) ∧
    fp "01/02/2024" "P-100" "100 Main St" "DEMOLITION" "ISSUED" =
      sha256hex "01/02/2024|P-100|100 MAIN ST|DEMOLITION|ISSUED" ∧
    (∀ i p a c s i2 p2 a2 c2 s2 : String,
        i = i2 → p = p2 → a = a2 → c = c2 → s = s2 →
        fp i p a c s = fp i2 p2 a2 c2 s2) := by
  refine ⟨fun i p a c s => rfl, ?_, ?_⟩
  · have h : upperStr (fpJoined "01/02/2024" "P-100" "100 Main St" "DEMOLITION" "ISSUED") =
        "01/02/2024|P-100|100 MAIN ST|DEMOLITION|ISSUED" := by decide
    unfold fp
    rw [h]
  · intro i p a c s i2 p2 a2 c2 s2 h1 h2 h3 h4 h5
    rw [h1, h2, h3, h4, h5]

/-- Witness for the hypothesis-bearing purity clause of
`fp_sha256_of_upper_joined`, at the spec's example tuple. -/
theorem fp_sha256_of_upper_joined_witness :
    fp "01/02/2024" "P-100" "100 Main St" "DEMOLITION" "ISSUED" =
      fp "01/02/2024" "P-100" "100 Main St" "DEMOLITION" "ISSUED" :=
  fp_sha256_of_upper_joined.2.2 "01/02/2024" "P-100" "100 Main St" "DEMOLITION" "ISSUED"
    "01/02/2024" "P-100" "100 Main St" "DEMOLITION" "ISSUED" rfl rfl rfl rfl rfl

/-- C7: the tier of a score follows the fixed threshold ladder
`score >= 85 -> A`, `70 <= score < 85 -> B`, `55 <= score < 70 -> C`,
`score < 55 -> D`, each as an exact characterisation. -/
theorem tier_threshold_ladder :
    ∀ s : Int,
      (tier s = "A" ↔ 85 ≤ s) ∧
      (tier s = "B" ↔ 70 ≤ s ∧ s < 85) ∧
      (tier s = "C" ↔ 55 ≤ s ∧ s < 70) ∧
      (tier s = "D" ↔ s < 55) := by
  intro s
  unfold tier
  split_ifs with hA hB hC <;>
    refine ⟨?_, ?_, ?_, ?_⟩ <;>
    constructor <;>
    intro hx <;>
    first
      | rfl
      | omega
      | exact absurd hx (by decide)

/-- C8: every label matched by no rule of the cascade receives the fixed
fallback score 40 with the explicit reason "Unclassified permit type".
(The embedded classifier is a total function, mirroring the straight-line
source, which has no raising path.) -/
theorem unmatched_label_default_score :
    ∀ s : String, matchesAnyRule (up s) = false →
      score_permit_type s = (40, "Unclassified permit type") := by
  intro s h
  unfold matchesAnyRule at h
  simp only [Bool.or_eq_false_iff] at h
  obtain ⟨⟨⟨⟨⟨⟨⟨⟨⟨⟨⟨h1, h2⟩, h3⟩, h4⟩, h5⟩, h6⟩, h7⟩, h8⟩, h9⟩, h10⟩, h11⟩, h12⟩ := h
  unfold score_permit_type scoreCore
  simp only [h1, h2, h3.1, h3.2, h4, h5.1, h5.2, h6, h7, h8, h9.1, h9.2, h10, h11, h12.1, h12.2,
    Bool.or_self, Bool.or_false, if_false]
  rfl

/-- Witness for `unmatched_label_default_score`: "Sign Permit" matches no
rule and scores 40. -/
theorem unmatched_label_default_score_witness :
    matchesAnyRule (up "Sign Permit") = false ∧
    score_permit_type "Sign Permit" = (40, "Unclassified permit type") :=
  ⟨by decide, unmatched_label_default_score "Sign Permit" (by decide)⟩

/-- C3 counterexample: the label "Demolition Commercial Interior Upfit
Addition" contains both the "commercial interior upfit" token sequence and
the "addition" token, yet it scores 98 via the earlier demolition rule,
not 86 — so the claim's universal statement fails as written. -/
theorem upfit_addition_rule_order_cex :
    pyIn "COMMERCIAL INTERIOR UPFIT" (up upfitAdditionDemoLabel) = true ∧
    pyIn "ADDITION" (up upfitAdditionDemoLabel) = true ∧
    score_permit_type upfitAdditionDemoLabel = (98, "Demolition = high debris") ∧
    (score_permit_type upfitAdditionDemoLabel).1 ≠ 86 := by
  refine ⟨by decide, by decide, by decide, by decide⟩

/-- C3 amended: a label containing both the upfit and addition tokens is
scored by the upfit rule (86), not the addition rule (84), provided no
earlier rule of the cascade (demolition, new construction) also matches;
first match wins in listed order. -/
theorem upfit_beats_addition :
    ∀ s : String,
      pyIn "COMMERCIAL INTERIOR UPFIT" (up s) = true →
      pyIn "ADDITION" (up s) = true →
      pyIn "DEMOLITION" (up s) = false →
      pyIn "NEW CONSTRUCTION" (up s) = false →
      score_permit_type s = (86, "Commercial upfit = tear-out debris") ∧
      (score_permit_type s).1 ≠ 84 := by
  intro s hU hA hD hN
  have hs : score_permit_type s = (86, "Commercial upfit = tear-out debris") := by
    unfold score_permit_type scoreCore
    simp only [hU, hD, hN, Bool.true_or, if_false, if_true]
    rfl
  exact ⟨hs, by rw [hs]; decide⟩

/-- Witness for `upfit_beats_addition` at a concrete two-token label. -/
theorem upfit_beats_addition_witness :
    pyIn "COMMERCIAL INTERIOR UPFIT" (up "Commercial Interior Upfit Addition") = true ∧
    score_permit_type "Commercial Interior Upfit Addition" =
      (86, "Commercial upfit = tear-out debris") :=
  ⟨by decide,
   (upfit_beats_addition "Commercial Interior Upfit Addition"
      (by decide) (by decide) (by decide) (by decide)).1⟩

/-- Dropping while `p` holds skips over a leading block that satisfies
`p` everywhere. -/
theorem dropWhile_append_all {p : Char → Bool} (xs ys : List Char)
    (h : ∀ c ∈ xs, p c = true) : (xs ++ ys).dropWhile p = ys.dropWhile p := by
  induction xs with
  | nil => rfl
  | cons a xs ih =>
    have ha : p a = true := h a (List.mem_cons_self a xs)
    simp only [List.cons_append, List.dropWhile_cons, ha, if_true]
    exact ih (fun c hc => h c (List.mem_cons_of_mem a hc))

/-- A list satisfying `p` everywhere drops to the empty list. -/
theorem dropWhile_all_nil {p : Char → Bool} (xs : List Char)
    (h : ∀ c ∈ xs, p c = true) : xs.dropWhile p = [] := by
  have hx := dropWhile_append_all xs [] h
  simpa using hx

/-- When the leading block contains a `p`-violating element, dropping
stops inside it, leaving the appended tail untouched. -/
theorem dropWhile_append_stops {p : Char → Bool} (xs ys : List Char)
    (h : ∃ c ∈ xs, p c = false) : (xs ++ ys).dropWhile p = xs.dropWhile p ++ ys := by
  induction xs with
  | nil =>
    obtain ⟨c, hc, _⟩ := h
    exact absurd hc (List.not_mem_nil c)
  | cons a xs ih =>
    by_cases ha : p a = true
    · simp only [List.cons_append, List.dropWhile_cons, ha, if_true]
      apply ih
      obtain ⟨c, hc, hcf⟩ := h
      rcases List.mem_cons.mp hc with rfl | hc2
      · rw [ha] at hcf
        cases hcf
      · exact ⟨c, hc2, hcf⟩
    · rw [Bool.not_eq_true] at ha
      simp only [List.cons_append, List.dropWhile_cons, ha, Bool.false_eq_true, if_false]

/-- Stripping ignores whitespace-only padding on either side. -/
theorem pyStrip_pad (d ws1 ws2 : List Char)
    (h1 : ∀ c ∈ ws1, isPySpace c = true) (h2 : ∀ c ∈ ws2, isPySpace c = true) :
    pyStrip (ws1 ++ d ++ ws2) = pyStrip d := by
  unfold pyStrip
  rw [List.append_assoc, dropWhile_append_all ws1 (d ++ ws2) h1]
  by_cases hall : ∀ c ∈ d, isPySpace c = true
  · rw [dropWhile_append_all d ws2 hall, dropWhile_all_nil ws2 h2, dropWhile_all_nil d hall]
  · push_neg at hall
    have hex : ∃ c ∈ d, isPySpace c = false := by
      obtain ⟨c, hc, hcne⟩ := hall
      exact ⟨c, hc, by simpa using hcne⟩
    rw [dropWhile_append_stops d ws2 hex, List.reverse_append,
      dropWhile_append_all ws2.reverse _ (fun c hc => h2 c (List.mem_reverse.mp hc))]

/-- Function `up` ignores whitespace-only padding on either side of a label. -/
theorem up_pad (s : String) (ws1 ws2 : List Char)
    (h1 : ∀ c ∈ ws1, isPySpace c = true) (h2 : ∀ c ∈ ws2, isPySpace c = true) :
    up ⟨ws1 ++ s.data ++ ws2⟩ = up s := by
  have hn : (norm ⟨ws1 ++ s.data ++ ws2⟩ : String) = norm s := by
    show (⟨collapseAux false (pyStrip (ws1 ++ s.data ++ ws2))⟩ : String) =
      ⟨collapseAux false (pyStrip s.data)⟩
    rw [pyStrip_pad s.data ws1 ws2 h1 h2]
  show upperStr (norm ⟨ws1 ++ s.data ++ ws2⟩) = upperStr (norm s)
  rw [hn]

/-- C9: classification is invariant under case and whitespace noise: any
two labels with the same `up`-canonicalisation (`up` strips, collapses
whitespace runs and upper-cases, so labels differing only in casing or
whitespace noise are exactly those identified by it) receive the same
score, reason and tier; concretely, whitespace-only padding of a label
never changes its classification, and "DEMOLITION" and "  demolition  "
classify identically. -/
theorem classification_noise_invariant :
    (∀ s1 s2 : String, up s1 = up s2 →
        score_permit_type s1 = score_permit_type s2 ∧
        tier (score_permit_type s1).1 = tier (score_permit_type s2).1) ∧
    (∀ (s : String) (ws1 ws2 : List Char),
        (∀ c ∈ ws1, isPySpace c = true) → (∀ c ∈ ws2, isPySpace c = true) →
        score_permit_type ⟨ws1 ++ s.data ++ ws2⟩ = score_permit_type s) ∧
    score_permit_type "DEMOLITION" = score_permit_type "  demolition  " ∧
    tier (score_permit_type "DEMOLITION").1 = tier (score_permit_type "  demolition  ").1 := by
  refine ⟨fun s1 s2 h => ?_, fun s ws1 ws2 hw1 hw2 => ?_, by decide, by decide⟩
  · unfold score_permit_type
    rw [h]
    exact ⟨rfl, rfl⟩
  · unfold score_permit_type
    rw [up_pad s ws1 ws2 hw1 hw2]

/-- Witness for `classification_noise_invariant` at the spec's example
pair. -/
theorem classification_noise_invariant_witness :
    up "DEMOLITION" = up "  demolition  " ∧
    score_permit_type "DEMOLITION" = score_permit_type "  demolition  " ∧
    score_permit_type ⟨[' ', ' '] ++ "demolition".data ++ [' ', ' ']⟩ =
      score_permit_type "demolition" :=
  ⟨by decide,
   (classification_noise_invariant.1 "DEMOLITION" "  demolition  " (by decide)).1,
   classification_noise_invariant.2.1 "demolition" [' ', ' '] [' ', ' ']
     (by decide) (by decide)⟩

/-- C2 counterexample: two byte-identical extracted rows produce two
records, with equal fingerprints, in the final record list — the pipeline
has no deduplication step, so the claimed collapse does not happen. -/
theorem rows_not_deduplicated_cex :
    (mainRecords "01/02/2024" "2024-01-03T00:00:00Z" [exGridRow, exGridRow]).length = 2 ∧
    ¬ ((mainRecords "01/02/2024" "2024-01-03T00:00:00Z" [exGridRow, exGridRow]).map
        PermitRecord.fingerprint).Nodup := by
  refine ⟨rfl, ?_⟩
  simp [mainRecords, List.nodup_cons]

/-- C2 amended: the pipeline maps each extracted row to one record with no
deduplication — the output has exactly one record per row (duplicates
included), and rows with identical cell tuples yield records with equal
fingerprints; collapsing duplicates is left to downstream consumers of
the fingerprint. -/
theorem records_map_rows_pointwise :
    ∀ (d t : String) (rows : List Row) (i j : Nat),
      rows[i]? = rows[j]? →
      (mainRecords d t rows).length = rows.length ∧
      ((mainRecords d t rows)[i]?).map PermitRecord.fingerprint =
        ((mainRecords d t rows)[j]?).map PermitRecord.fingerprint := by
  intro d t rows i j hij
  constructor
  · simp [mainRecords]
  · simp only [mainRecords, List.getElem?_map, hij]

/-- Witness for `records_map_rows_pointwise` on a duplicated concrete
row. -/
theorem records_map_rows_pointwise_witness :
    (mainRecords "01/02/2024" "2024-01-03T00:00:00Z" [exGridRow, exGridRow]).length =
      [exGridRow, exGridRow].length ∧
    ((mainRecords "01/02/2024" "2024-01-03T00:00:00Z" [exGridRow, exGridRow])[0]?).map
        PermitRecord.fingerprint =
      ((mainRecords "01/02/2024" "2024-01-03T00:00:00Z" [exGridRow, exGridRow])[1]?).map
        PermitRecord.fingerprint :=
  records_map_rows_pointwise "01/02/2024" "2024-01-03T00:00:00Z" [exGridRow, exGridRow] 0 1 rfl

/-- C5 counterexample: normalizing a raw row with no columns at all yields
a record whose permitId, category, status, parcelId and address fields all
carry the empty string — not `null` as claimed. -/
theorem missing_columns_empty_string_cex :
    (mkRecord "01/02/2024" "2024-01-03T00:00:00Z" []).project.permit_no = some "" ∧
    (mkRecord "01/02/2024" "2024-01-03T00:00:00Z" []).project.permit_type = some "" ∧
    (mkRecord "01/02/2024" "2024-01-03T00:00:00Z" []).project.status = some "" ∧
    (mkRecord "01/02/2024" "2024-01-03T00:00:00Z" []).project.site_apn = some "" ∧
    (mkRecord "01/02/2024" "2024-01-03T00:00:00Z" []).project.address = some "" ∧
    (mkRecord "01/02/2024" "2024-01-03T00:00:00Z" []).project.permit_no ≠ none := by
  refine ⟨rfl, rfl, rfl, rfl, rfl, by decide⟩

/-- C5 amended: a raw row lacking a column yields the empty string (never
`null`) for the corresponding optional field, via the `or ""` fallback
chains; a missing ISSUED column falls back to the queried date. -/
theorem missing_columns_yield_empty_string :
    ∀ (d t : String) (r : Row),
      (List.lookup "PERMIT_NO" r = none → List.lookup "Permit No" r = none →
        List.lookup "PERMIT" r = none → (mkRecord d t r).project.permit_no = some "") ∧
      (List.lookup "STATUS" r = none → (mkRecord d t r).project.status = some "") ∧
      (List.lookup "SITE_APN" r = none → (mkRecord d t r).project.site_apn = some "") ∧
      (List.lookup "SITE_ADDR" r = none → List.lookup "SITE ADDR" r = none →
        List.lookup "SITE_ADDR " r = none → (mkRecord d t r).project.address = some "") ∧
      (List.lookup "Permit Type" r = none → List.lookup "PERMIT TYPE" r = none →
        (mkRecord d t r).project.permit_type = some "") ∧
      (List.lookup "ISSUED" r = none → (mkRecord d t r).issued_date = d) := by
  intro d t r
  refine ⟨fun h1 h2 h3 => ?_, fun h1 => ?_, fun h1 => ?_,
    fun h1 h2 h3 => ?_, fun h1 h2 => ?_, fun h1 => ?_⟩ <;>
    simp [mkRecord, firstTruthy, *]

/-- Witness for `missing_columns_yield_empty_string` at the empty raw
row. -/
theorem missing_columns_yield_empty_string_witness :
    (mkRecord "01/02/2024" "2024-01-03T00:00:00Z" []).project.permit_no = some "" ∧
    (mkRecord "01/02/2024" "2024-01-03T00:00:00Z" []).issued_date = "01/02/2024" :=
  ⟨(missing_columns_yield_empty_string "01/02/2024" "2024-01-03T00:00:00Z" []).1 rfl rfl rfl,
   (missing_columns_yield_empty_string "01/02/2024" "2024-01-03T00:00:00Z" []).2.2.2.2.2 rfl⟩

/-- C6 counterexample: a row with one cell under two headers is keyed
positionally (`col_0`), not by its corresponding header — the present cell
is not mapped to header "A" as the claim states. -/
theorem short_row_positional_keys_cex :
    parse_grid_row ["A", "B"] ["x"] = [("col_0", "x")] ∧
    List.lookup "A" (parse_grid_row ["A", "B"] ["x"]) = none ∧
    List.lookup "col_0" (parse_grid_row ["A", "B"] ["x"]) = some "x" := by
  refine ⟨by decide, by decide, by decide⟩

/-- C6 amended: a row with fewer cells than headers is parsed without
error, but its cells are keyed positionally as `col_j` (one entry per
present cell, in order), not mapped to the headers; header-keyed mapping
applies only to rows with at least as many cells as headers. -/
theorem short_row_mapped_positionally :
    ∀ (headers tds : List String),
      headers ≠ [] → tds.length < headers.length →
      parse_grid_row headers tds =
        (tds.map norm).enum.map (fun p => ("col_" ++ toString p.1, p.2)) ∧
      (parse_grid_row headers tds).length = tds.length := by
  intro hs t h1 h2
  have hc : ¬(hs ≠ [] ∧ hs.length ≤ (t.map norm).length) := by
    rw [List.length_map]
    push_neg
    intro _
    omega
  constructor
  · unfold parse_grid_row
    rw [if_neg hc]
  · unfold parse_grid_row
    rw [if_neg hc]
    simp

/-- Witness for `short_row_mapped_positionally` at a one-cell row under
two headers. -/
theorem short_row_mapped_positionally_witness :
    parse_grid_row ["A", "B"] ["x"] =
      (["x"].map norm).enum.map (fun p => ("col_" ++ toString p.1, p.2)) ∧
    (parse_grid_row ["A", "B"] ["x"]).length = ["x"].length :=
  short_row_mapped_positionally ["A", "B"] ["x"] (by decide) (by decide)

/-- C4 counterexample: on a three-page portal whose next control is always
present and enabled and whose first rows all differ, the walker collects
only pages one and two — page three is never visited although no claimed
termination condition (control missing, control disabled, page cap,
stall) holds there. -/
theorem pagination_stops_after_one_advance_cex :
    run_search_rows portal3 = [pageRow "P-1", pageRow "P-2"] ∧
    pageRow "P-3" ∉ run_search_rows portal3 ∧
    portal3.nextPresent 1 = true ∧
    portal3.nextDisabled 1 = false ∧
    portal3.pages.length = 3 := by
  refine ⟨by decide, by decide, rfl, rfl, rfl⟩

/-- C4 amended: the walker is not a loop — it extracts page one and
attempts exactly one advance.  The output is page one's rows alone when
the single `click_next_if_available` attempt fails (no control, disabled
control, empty or unchanged next page), page one plus page two when it
succeeds, and in every case no row beyond the first two pages is
collected. -/
theorem pagination_at_most_two_pages :
    ∀ (P : Portal) (r : Row),
      (click_next_if_available P 0 (P.pages.getD 0 []).head? = false →
        run_search_rows P = P.pages.getD 0 []) ∧
      (click_next_if_available P 0 (P.pages.getD 0 []).head? = true →
        run_search_rows P = P.pages.getD 0 [] ++ P.pages.getD 1 []) ∧
      (r ∈ run_search_rows P → r ∈ P.pages.getD 0 [] ∨ r ∈ P.pages.getD 1 []) := by
  intro P r
  refine ⟨fun h => ?_, fun h => ?_, fun h => ?_⟩
  · simp only [run_search_rows, h, Bool.false_eq_true, if_false]
  · simp only [run_search_rows, h, eq_self_iff_true, if_true]
  · by_cases hc : click_next_if_available P 0 (P.pages.getD 0 []).head? = true
    · simp only [run_search_rows, hc, eq_self_iff_true, if_true, List.mem_append] at h
      exact h
    · rw [Bool.not_eq_true] at hc
      simp only [run_search_rows, hc, Bool.false_eq_true, if_false] at h
      exact Or.inl h

/-- Witness for `pagination_at_most_two_pages`, on the three-page
portal: the single advance succeeds and the output is exactly pages one
and two. -/
theorem pagination_at_most_two_pages_witness :
    click_next_if_available portal3 0 (portal3.pages.getD 0 []).head? = true ∧
    run_search_rows portal3 = portal3.pages.getD 0 [] ++ portal3.pages.getD 1 [] ∧
    (pageRow "P-2" ∈ run_search_rows portal3 →
      pageRow "P-2" ∈ portal3.pages.getD 0 [] ∨ pageRow "P-2" ∈ portal3.pages.getD 1 []) :=
  ⟨by decide,
   (pagination_at_most_two_pages portal3 (pageRow "P-2")).2.1 (by decide),
   (pagination_at_most_two_pages portal3 (pageRow "P-2")).2.2⟩

/-- Dict assignment of a key absent from the row appends the pair. -/
theorem setKeyV_of_lookup_none (r : RowCsv) (k : String) (v : PyVal)
    (h : List.lookup k r = none) : setKeyV r k v = r ++ [(k, v)] := by
  simp [setKeyV, h]

/-- A key absent from a row is still absent after appending a pair with a
different key. -/
theorem lookup_append_single_of_ne (r : RowCsv) (k k2 : String) (v : PyVal)
    (h : List.lookup k r = none) (hne : (k == k2) = false) :
    List.lookup k (r ++ [(k2, v)]) = none := by
  simp [List.lookup_append, h, List.lookup, hne]

/-- C10: the scorer outputs exactly the input rows — one output row per
input row — each extended (for rows not already carrying the output
columns, as `DictReader` rows are) by appending `dumpster_score`,
`dumpster_tier` and `dumpster_reason`, and the output is ordered by
non-increasing `dumpster_score` sort key. -/
theorem scorer_extends_and_sorts_rows :
    ∀ (ptCol : String) (rows : List RowCsv) (r : RowCsv),
      rows ≠ [] →
      List.lookup "dumpster_score" r = none →
      List.lookup "dumpster_tier" r = none →
      List.lookup "dumpster_reason" r = none →
      (scoredRows ptCol rows).Perm (rows.map (extendRow ptCol)) ∧
      List.Pairwise (fun a b => sortKey b ≤ sortKey a) (scoredRows ptCol rows) ∧
      extendRow ptCol r =
        r ++ [("dumpster_score",
                PyVal.vint (score_permit_type (strOf ((List.lookup ptCol r).getD (.vstr "")))).1),
              ("dumpster_tier",
                PyVal.vstr (tier (score_permit_type (strOf ((List.lookup ptCol r).getD (.vstr "")))).1)),
              ("dumpster_reason",
                PyVal.vstr (score_permit_type (strOf ((List.lookup ptCol r).getD (.vstr "")))).2)] := by
  intro ptCol rows r hne h1 h2 h3
  refine ⟨List.mergeSort_perm _ _, ?_, ?_⟩
  · have hs := @List.sorted_mergeSort RowCsv (fun a b => decide (sortKey b ≤ sortKey a))
      (fun a b c hab hbc => by
        rw [decide_eq_true_eq] at hab hbc ⊢
        exact le_trans hbc hab)
      (fun a b => by
        rcases le_total (sortKey b) (sortKey a) with h | h
        · simp [h]
        · simp [h])
      (rows.map (extendRow ptCol))
    exact hs.imp (fun h => by simpa using h)
  · have e1 := setKeyV_of_lookup_none r "dumpster_score"
      (PyVal.vint (score_permit_type (strOf ((List.lookup ptCol r).getD (.vstr "")))).1) h1
    have l2 := lookup_append_single_of_ne r "dumpster_tier" "dumpster_score"
      (PyVal.vint (score_permit_type (strOf ((List.lookup ptCol r).getD (.vstr "")))).1) h2 (by decide)
    have e2 := setKeyV_of_lookup_none _ "dumpster_tier"
      (PyVal.vstr (tier (score_permit_type (strOf ((List.lookup ptCol r).getD (.vstr "")))).1)) l2
    have l3a := lookup_append_single_of_ne r "dumpster_reason" "dumpster_score"
      (PyVal.vint (score_permit_type (strOf ((List.lookup ptCol r).getD (.vstr "")))).1) h3 (by decide)
    have l3 := lookup_append_single_of_ne _ "dumpster_reason" "dumpster_tier"
      (PyVal.vstr (tier (score_permit_type (strOf ((List.lookup ptCol r).getD (.vstr "")))).1)) l3a (by decide)
    have e3 := setKeyV_of_lookup_none _ "dumpster_reason"
      (PyVal.vstr (score_permit_type (strOf ((List.lookup ptCol r).getD (.vstr "")))).2) l3
    simp only [extendRow]
    rw [e1, e2, e3]
    simp [List.append_assoc]

/-- Witness for `scorer_extends_and_sorts_rows` on a one-row CSV. -/
theorem scorer_extends_and_sorts_rows_witness :
    (scoredRows "Permit Type" [exCsvRow]).Perm ([exCsvRow].map (extendRow "Permit Type")) ∧
    List.Pairwise (fun a b => sortKey b ≤ sortKey a) (scoredRows "Permit Type" [exCsvRow]) ∧
    extendRow "Permit Type" exCsvRow =
      exCsvRow ++
        [("dumpster_score",
           PyVal.vint (score_permit_type (strOf ((List.lookup "Permit Type" exCsvRow).getD (.vstr "")))).1),
         ("dumpster_tier",
           PyVal.vstr (tier (score_permit_type (strOf ((List.lookup "Permit Type" exCsvRow).getD (.vstr "")))).1)),
         ("dumpster_reason",
           PyVal.vstr (score_permit_type (strOf ((List.lookup "Permit Type" exCsvRow).getD (.vstr "")))).2)] :=
  scorer_extends_and_sorts_rows "Permit Type" [exCsvRow] exCsvRow
    (List.cons_ne_nil _ _) rfl rfl rfl
